import Mathlib

/-!
# Announcement Service — verification of the announcements router

Shallow embedding of `src/backend/routers/announcements.py`.

Modelling choices:
* Timestamps (`datetime`) are modelled as `Int` (any totally ordered time axis);
  a Python `datetime` object is always truthy, so `if announcement.start_date`
  is presence (`Option.isSome`), never a comparison with zero.
* The Mongo announcements collection is a `List Announcement`; `find` with the
  active-only query is `List.filter`, `.sort("created_at", -1)` is an insertion
  sort on `created_at` descending, `update_one`/`delete_one` act on the first
  record whose `_id` matches, and `modified_count` is `1` exactly when the
  `$set` document actually changes the stored record (Mongo semantics).
* The teachers collection is the list of existing teacher usernames;
  `teachers_collection.find_one({"_id": u})` is list membership.
* `HTTPException` outcomes become an `ApiError` value: status 401 is
  `unauthorized`, 400 is `invalidInput` (with the particular detail as an
  `InvalidReason`), 404 is `notFound`, 500 is `storageError`.
* `bson.ObjectId(s)` succeeds exactly on 24-character hex strings; stored ids
  are kept as strings.
* Handlers are pure: they take the store (and the current time where the code
  calls `datetime.now()`) and return `Except ApiError result`; a returned
  error means no mutation happened.  The store-assigned id of an insert is an
  explicit `newId` argument (`insert_one` always reports an `inserted_id`, so
  the `if not result.inserted_id` 500-branch of the code is unreachable and
  not modelled).
* Pydantic parse-level constraints (title/message lengths) happen before the
  handler runs and are outside the embedded functions.  The Pydantic default
  `is_active: bool = True` of `AnnouncementCreate` is modelled by carrying the
  request field as `Option Bool` and applying `Option.getD true` where the
  parsed model would hold the defaulted value.
-/

/-- A stored announcement document (fields of the Mongo document, with the
store `_id` as `id`). -/
structure Announcement where
  id : String
  title : String
  message : String
  start_date : Option Int
  expiration_date : Int
  is_active : Bool
  created_by : String
  created_at : Int
deriving Repr, DecidableEq

/-- The distinct 400-level details raised by the router. -/
inductive InvalidReason where
  /-- "Expiration date must be in the future" -/
  | expirationInPast
  /-- "Start date must be before expiration date" -/
  | startAfterExpiration
  /-- "No fields provided for update" -/
  | emptyPatch
  /-- "Invalid announcement ID" -/
  | malformedId
deriving Repr, DecidableEq

/-- The failure taxonomy of the service (HTTP 401 / 400 / 404 / 500). -/
inductive ApiError where
  | unauthorized
  | invalidInput (reason : InvalidReason)
  | notFound
  | storageError
deriving Repr, DecidableEq

/-- `teachers_collection.find_one({"_id": u})` yields a record iff `u` is an
existing teacher username. -/
def teacherExists (teachers : List String) (u : String) : Bool :=
  teachers.contains u

/-- Python truthiness of the `Optional[str]` query parameter
`teacher_username`: `None` and the empty string are falsy. -/
def truthyStr (u : Option String) : Bool :=
  match u with
  | none => false
  | some s => !(decide (s = ""))

/-- The active-only Mongo query of `get_announcements`:
`{"is_active": True, "$and": [{"expiration_date": {"$gte": now}},
{"$or": [{"start_date": {"$lte": now}}, {"start_date": None}]}]}`.
A `$lte` with a date operand matches only date values, so a `None`
`start_date` satisfies the `$or` through its second disjunct only. -/
def matchesActiveQuery (now : Int) (a : Announcement) : Bool :=
  a.is_active &&
    (decide (now ≤ a.expiration_date) &&
      ((match a.start_date with
        | some s => decide (s ≤ now)
        | none => false) ||
        a.start_date.isNone))

/-- The spec's "currently active" predicate, written from its words:
`is_active == true` AND `expiration_date >= now` AND
(`start_date` is absent OR `start_date <= now`). -/
def currentlyActive (now : Int) (a : Announcement) : Bool :=
  a.is_active && decide (now ≤ a.expiration_date) &&
    (a.start_date.isNone || a.start_date.any (fun s => decide (s ≤ now)))

/-- Comparison used by `.sort("created_at", -1)`: newest first. -/
def createdDesc (a b : Announcement) : Prop :=
  b.created_at ≤ a.created_at

instance : DecidableRel createdDesc :=
  fun a b => inferInstanceAs (Decidable (b.created_at ≤ a.created_at))

instance : IsTotal Announcement createdDesc :=
  ⟨fun a b => (Int.le_total b.created_at a.created_at).elim Or.inl Or.inr⟩

instance : IsTrans Announcement createdDesc :=
  ⟨fun _ _ _ h1 h2 => le_trans h2 h1⟩

/-- The store's `created_at` descending sort. -/
def sortByCreatedAtDesc (l : List Announcement) : List Announcement :=
  List.insertionSort createdDesc l

/-- `GET /announcements` (`get_announcements`): builds the query from
`active_only`, performs the management-access teacher check only when
`active_only` is false and `teacher_username` is truthy, then returns the
matching records sorted by `created_at` descending. -/
def get_announcements (teachers : List String) (store : List Announcement)
    (now : Int) (active_only : Bool) (teacher_username : Option String) :
    Except ApiError (List Announcement) :=
  let query : Announcement → Bool :=
    if active_only then matchesActiveQuery now else fun _ => true
  if !active_only && truthyStr teacher_username &&
      !(teacherExists teachers (teacher_username.getD "")) then
    .error .unauthorized
  else
    .ok (sortByCreatedAtDesc (store.filter query))

/-- The body of a `POST /announcements` request (`AnnouncementCreate`);
`is_active` is `none` when the request omits the field (Pydantic then
defaults it to `True`). -/
structure AnnouncementCreate where
  title : String
  message : String
  start_date : Option Int
  expiration_date : Int
  is_active : Option Bool
deriving Repr, DecidableEq

/-- `POST /announcements` (`create_announcement`): teacher check, then
`expiration_date <= now` → 400, then `start_date` present and
`start_date >= expiration_date` → 400, then insert of the new document. -/
def create_announcement (teachers : List String) (store : List Announcement)
    (now : Int) (announcement : AnnouncementCreate) (teacher_username : String)
    (newId : String) : Except ApiError (List Announcement × String) :=
  if !(teacherExists teachers teacher_username) then
    .error .unauthorized
  else if announcement.expiration_date ≤ now then
    .error (.invalidInput .expirationInPast)
  else if announcement.start_date.any
      (fun s => decide (announcement.expiration_date ≤ s)) then
    .error (.invalidInput .startAfterExpiration)
  else
    .ok (store ++ [{
      id := newId
      title := announcement.title
      message := announcement.message
      start_date := announcement.start_date
      expiration_date := announcement.expiration_date
      is_active := announcement.is_active.getD true
      created_by := teacher_username
      created_at := now }], newId)

/-- The body of a `PUT /announcements/{id}` request (`AnnouncementUpdate`):
every field optional, `None` meaning absent. -/
structure AnnouncementUpdate where
  title : Option String
  message : Option String
  start_date : Option Int
  expiration_date : Option Int
  is_active : Option Bool
deriving Repr, DecidableEq

/-- `bson.ObjectId` accepts exactly 24-character hexadecimal strings. -/
def isHexChar (c : Char) : Bool :=
  c.isDigit || (('a' ≤ c && c ≤ 'f') || ('A' ≤ c && c ≤ 'F'))

/-- Well-formedness of a store identifier (`ObjectId(s)` does not raise). -/
def isValidObjectId (s : String) : Bool :=
  s.length == 24 && s.data.all isHexChar

/-- The `update_doc` built by `update_announcement` is empty iff no patch
field is present. -/
def patchIsEmpty (p : AnnouncementUpdate) : Bool :=
  p.title.isNone && p.message.isNone && p.start_date.isNone &&
    p.expiration_date.isNone && p.is_active.isNone

/-- `final_expiration`: the patch value if present, else the stored one. -/
def effectiveExpiration (p : AnnouncementUpdate) (a : Announcement) : Int :=
  p.expiration_date.getD a.expiration_date

/-- `final_start`: the patch value if present, else the stored one. -/
def effectiveStart (p : AnnouncementUpdate) (a : Announcement) : Option Int :=
  match p.start_date with
  | some s => some s
  | none => a.start_date

/-- The effect of `update_one` with `{"$set": update_doc}` on one record:
each present patch field overwrites the stored field, absent fields are
untouched; `_id`, `created_by`, `created_at` are never in `update_doc`. -/
def applyPatch (a : Announcement) (p : AnnouncementUpdate) : Announcement :=
  { a with
    title := p.title.getD a.title
    message := p.message.getD a.message
    start_date := match p.start_date with
      | some s => some s
      | none => a.start_date
    expiration_date := p.expiration_date.getD a.expiration_date
    is_active := p.is_active.getD a.is_active }

/-- `update_one`/`$set` on the collection: rewrites the first record whose id
matches, leaves every other record untouched. -/
def updateFirst (store : List Announcement) (aid : String)
    (p : AnnouncementUpdate) : List Announcement :=
  match store with
  | [] => []
  | a :: rest =>
    if a.id = aid then applyPatch a p :: rest
    else a :: updateFirst rest aid p

/-- `PUT /announcements/{id}` (`update_announcement`): teacher check, then
`ObjectId` parse (400 on malformed), then existence (404), then date
validation on the effective (`final_*`) values, then the empty-patch check,
then the write; `modified_count == 0` (the `$set` changes nothing) → 500. -/
def update_announcement (teachers : List String) (store : List Announcement)
    (now : Int) (announcement_id : String) (patch : AnnouncementUpdate)
    (teacher_username : String) : Except ApiError (List Announcement) :=
  if !(teacherExists teachers teacher_username) then
    .error .unauthorized
  else if !(isValidObjectId announcement_id) then
    .error (.invalidInput .malformedId)
  else
    match store.find? (fun a => decide (a.id = announcement_id)) with
    | none => .error .notFound
    | some existing =>
      if effectiveExpiration patch existing ≤ now then
        .error (.invalidInput .expirationInPast)
      else if (effectiveStart patch existing).any
          (fun s => decide (effectiveExpiration patch existing ≤ s)) then
        .error (.invalidInput .startAfterExpiration)
      else if patchIsEmpty patch then
        .error (.invalidInput .emptyPatch)
      else if applyPatch existing patch = existing then
        .error .storageError
      else
        .ok (updateFirst store announcement_id patch)

/-- `delete_one` on the collection: removes the first record whose id
matches. -/
def deleteFirst (store : List Announcement) (aid : String) :
    List Announcement :=
  match store with
  | [] => []
  | a :: rest => if a.id = aid then rest else a :: deleteFirst rest aid

/-- `DELETE /announcements/{id}` (`delete_announcement`): teacher check, then
`ObjectId` parse (400 on malformed), then the delete; `deleted_count == 0`
→ 404. -/
def delete_announcement (teachers : List String) (store : List Announcement)
    (announcement_id : String) (teacher_username : String) :
    Except ApiError (List Announcement) :=
  if !(teacherExists teachers teacher_username) then
    .error .unauthorized
  else if !(isValidObjectId announcement_id) then
    .error (.invalidInput .malformedId)
  else if store.any (fun a => decide (a.id = announcement_id)) then
    .ok (deleteFirst store announcement_id)
  else
    .error .notFound

/-- The Mongo active-only query agrees pointwise with the spec's
"currently active" predicate. -/
lemma matchesActiveQuery_eq_currentlyActive (now : Int) :
    matchesActiveQuery now = currentlyActive now := by
  funext a
  unfold matchesActiveQuery currentlyActive
  cases h : a.start_date <;> simp [h, Bool.and_assoc, Bool.or_comm]

/-- A stored announcement whose expiration is already past at time `0`. -/
def expiredAnn : Announcement :=
  { id := "aaaaaaaaaaaaaaaaaaaaaaaa", title := "old", message := "old",
    start_date := none, expiration_date := -1, is_active := true,
    created_by := "t", created_at := -5 }

/-- The announcement of the spec's merge-validation example:
`start_date = 2024-01-01`, `expiration_date = 2024-12-31` (dates as
`YYYYMMDD` integers). -/
def storedAnn : Announcement :=
  { id := "bbbbbbbbbbbbbbbbbbbbbbbb", title := "term dates", message := "m",
    start_date := some 20240101, expiration_date := 20241231,
    is_active := true, created_by := "t", created_at := 20240101 }

/-- A stored announcement that is valid at time `0` (expires at `100`). -/
def activeAnn : Announcement :=
  { id := "eeeeeeeeeeeeeeeeeeeeeeee", title := "T", message := "M",
    start_date := none, expiration_date := 100, is_active := true,
    created_by := "t", created_at := 3 }

/-- The all-absent patch. -/
def emptyPatchVal : AnnouncementUpdate :=
  { title := none, message := none, start_date := none,
    expiration_date := none, is_active := none }

/-- The patch of the spec's merge-validation example: only
`expiration_date = 2023-06-01`. -/
def patchExpPast : AnnouncementUpdate :=
  { title := none, message := none, start_date := none,
    expiration_date := some 20230601, is_active := none }

/-- A patch that only rewrites the title. -/
def titlePatch : AnnouncementUpdate :=
  { title := some "U", message := none, start_date := none,
    expiration_date := none, is_active := none }

/-- A patch that sets `is_active` to the value `activeAnn` already has, so
the store's `$set` modifies nothing. -/
def noopPatch : AnnouncementUpdate :=
  { title := none, message := none, start_date := none,
    expiration_date := none, is_active := some true }

/-- A well-formed create request: expires at `100`, no start date,
`is_active` omitted. -/
def sampleCreate : AnnouncementCreate :=
  { title := "T", message := "M", start_date := none,
    expiration_date := 100, is_active := none }

/-- C1: for every store and query time, `List(active_only=true)` succeeds and
returns exactly the announcements satisfying the spec's currently-active
predicate (`is_active` and unexpired and started-or-no-start), as a
permutation of that filter, ordered by `created_at` descending. -/
theorem list_active_only_exact (teachers : List String)
    (store : List Announcement) (now : Int) (u : Option String) :
    ∃ l, get_announcements teachers store now true u = .ok l ∧
      l.Perm (store.filter (currentlyActive now)) ∧
      List.Sorted createdDesc l := by
  refine ⟨sortByCreatedAtDesc (store.filter (matchesActiveQuery now)),
    rfl, ?_, ?_⟩
  · unfold sortByCreatedAtDesc
    rw [matchesActiveQuery_eq_currentlyActive]
    exact List.perm_insertionSort createdDesc _
  · exact List.sorted_insertionSort createdDesc _

/-- C10: `List(active_only=true)` performs no authorization check: its result
is the same for any two teacher directories and any two requester usernames
(present, absent, or unknown). -/
theorem list_active_only_ignores_requester (teachers1 teachers2 : List String)
    (store : List Announcement) (now : Int) (u1 u2 : Option String) :
    get_announcements teachers1 store now true u1 =
      get_announcements teachers2 store now true u2 := rfl

/-- C3 counterexample: the empty string is a provided `requester_username`
that does not resolve to any teacher, yet `List(active_only=false)` returns
the unfiltered list instead of failing with `Unauthorized` (the code's
truthiness test `if not active_only and teacher_username` skips the check). -/
theorem list_management_empty_username_counterexample :
    teacherExists [] "" = false ∧
    get_announcements [] [expiredAnn] 0 false (some "") =
      .ok [expiredAnn] := ⟨rfl, rfl⟩

/-- C3 amended: when `active_only` is false, a provided *non-empty*
`requester_username` must resolve to an existing teacher, else
`Unauthorized`; an absent (or empty) username yields the unfiltered list of
all announcements with no authorization check. -/
theorem list_management_auth (teachers : List String)
    (store : List Announcement) (now : Int) :
    (∀ u : String, u ≠ "" → teacherExists teachers u = false →
      get_announcements teachers store now false (some u) =
        .error .unauthorized) ∧
    (∀ u : String, teacherExists teachers u = true →
      ∃ l, get_announcements teachers store now false (some u) = .ok l ∧
        l.Perm store) ∧
    (∃ l, get_announcements teachers store now false none = .ok l ∧
      l.Perm store) ∧
    (∃ l, get_announcements teachers store now false (some "") = .ok l ∧
      l.Perm store) := by
  have hperm : (sortByCreatedAtDesc (store.filter fun _ => true)).Perm store := by
    rw [List.filter_true]
    exact List.perm_insertionSort createdDesc store
  refine ⟨?_, ?_, ⟨_, rfl, hperm⟩, ⟨_, rfl, hperm⟩⟩
  · intro u hu hnot
    unfold get_announcements
    simp [truthyStr, hu, hnot]
  · intro u hyes
    refine ⟨sortByCreatedAtDesc (store.filter fun _ => true), ?_, hperm⟩
    unfold get_announcements
    by_cases hu : u = "" <;> simp [truthyStr, hu, hyes]

/-- C3 witness: a concrete non-empty unknown username is rejected in
management mode, a known one is served. -/
theorem list_management_auth_witness :
    get_announcements ["t"] [expiredAnn] 0 false (some "x") =
      .error .unauthorized ∧
    (∃ l, get_announcements ["t"] [expiredAnn] 0 false (some "t") = .ok l ∧
      l.Perm [expiredAnn]) :=
  ⟨(list_management_auth ["t"] [expiredAnn] 0).1 "x" (by decide) rfl,
    (list_management_auth ["t"] [expiredAnn] 0).2.1 "t" rfl⟩

/-- With an all-absent patch the effective values are the stored ones. -/
lemma effective_of_emptyPatch (patch : AnnouncementUpdate)
    (existing : Announcement) (hempty : patchIsEmpty patch = true) :
    effectiveExpiration patch existing = existing.expiration_date ∧
    effectiveStart patch existing = existing.start_date := by
  unfold patchIsEmpty at hempty
  simp only [Bool.and_eq_true, Option.isNone_iff_eq_none] at hempty
  obtain ⟨⟨⟨⟨-, -⟩, hs⟩, he⟩, -⟩ := hempty
  unfold effectiveExpiration effectiveStart
  rw [hs, he]
  exact ⟨rfl, rfl⟩

/-- C2: once authorization, id well-formedness and existence hold, Update is
rejected with an `InvalidInput` date error whenever the effective expiration
(patch value if present, else stored) is not strictly in the future, or the
effective start is not strictly before the effective expiration. -/
theorem update_validates_effective_dates (teachers : List String)
    (store : List Announcement) (now : Int) (aid : String)
    (patch : AnnouncementUpdate) (u : String) (existing : Announcement)
    (hauth : teacherExists teachers u = true)
    (hid : isValidObjectId aid = true)
    (hfind : store.find? (fun a => decide (a.id = aid)) = some existing)
    (hbad : effectiveExpiration patch existing ≤ now ∨
      ∃ s, effectiveStart patch existing = some s ∧
        effectiveExpiration patch existing ≤ s) :
    ∃ r, update_announcement teachers store now aid patch u =
        .error (.invalidInput r) ∧
      (r = .expirationInPast ∨ r = .startAfterExpiration) := by
  unfold update_announcement
  rw [hauth, hid, hfind]
  by_cases hexp : effectiveExpiration patch existing ≤ now
  · exact ⟨.expirationInPast, by simp [hexp], Or.inl rfl⟩
  · rcases hbad with h | ⟨s, hs, hle⟩
    · exact absurd h hexp
    · refine ⟨.startAfterExpiration, ?_, Or.inr rfl⟩
      simp [hexp, hs, hle]

/-- C2 witness: the spec's example — stored `start 2024-01-01`,
`expiration 2024-12-31`, a patch setting only `expiration = 2023-06-01`,
queried mid-2024 — is rejected with a date `InvalidInput`. -/
theorem update_validates_effective_dates_witness :
    ∃ r, update_announcement ["t"] [storedAnn] 20240315
        "bbbbbbbbbbbbbbbbbbbbbbbb" patchExpPast "t" =
        .error (.invalidInput r) ∧
      (r = .expirationInPast ∨ r = .startAfterExpiration) :=
  update_validates_effective_dates ["t"] [storedAnn] 20240315
    "bbbbbbbbbbbbbbbbbbbbbbbb" patchExpPast "t" storedAnn rfl rfl rfl
    (Or.inl (by decide))

/-- C5 counterexample: for a stored announcement whose expiration already
passed, an empty patch is rejected with the expiration-date `InvalidInput`
(the code validates dates before checking for an empty `update_doc`), not
with `InvalidInput("empty patch")` as the claim states. -/
theorem update_empty_patch_counterexample :
    patchIsEmpty emptyPatchVal = true ∧
    update_announcement ["t"] [expiredAnn] 0 "aaaaaaaaaaaaaaaaaaaaaaaa"
        emptyPatchVal "t" = .error (.invalidInput .expirationInPast) ∧
    ApiError.invalidInput .expirationInPast ≠ .invalidInput .emptyPatch :=
  ⟨rfl, rfl, by decide⟩

/-- C5 amended: for an authorized Update of an existing announcement with an
empty patch, the operation always fails with some `InvalidInput` (leaving the
store unmodified), and the reason is `emptyPatch` exactly when the stored
dates still pass validation (stored expiration strictly in the future and
stored start, if any, strictly before it); when the stored dates no longer
validate, the corresponding date error is reported instead.  The three
reason-pinning conjuncts cover the mutually exclusive, exhaustive cases of
the stored dates, so they determine the reported reason completely: in
particular the reason is `emptyPatch` in no other case. -/
theorem update_empty_patch_rejected (teachers : List String)
    (store : List Announcement) (now : Int) (aid : String)
    (patch : AnnouncementUpdate) (u : String) (existing : Announcement)
    (hauth : teacherExists teachers u = true)
    (hid : isValidObjectId aid = true)
    (hfind : store.find? (fun a => decide (a.id = aid)) = some existing)
    (hempty : patchIsEmpty patch = true) :
    (∃ r, update_announcement teachers store now aid patch u =
        .error (.invalidInput r)) ∧
    (now < existing.expiration_date →
      (∀ s, existing.start_date = some s → s < existing.expiration_date) →
      update_announcement teachers store now aid patch u =
        .error (.invalidInput .emptyPatch)) ∧
    (existing.expiration_date ≤ now →
      update_announcement teachers store now aid patch u =
        .error (.invalidInput .expirationInPast)) ∧
    (now < existing.expiration_date →
      (∀ s, existing.start_date = some s → existing.expiration_date ≤ s →
        update_announcement teachers store now aid patch u =
          .error (.invalidInput .startAfterExpiration))) := by
  obtain ⟨hee, hes⟩ := effective_of_emptyPatch patch existing hempty
  unfold update_announcement
  rw [hauth, hid, hfind]
  refine ⟨?_, ?_, ?_, ?_⟩
  · by_cases hexp : existing.expiration_date ≤ now
    · exact ⟨.expirationInPast, by simp [hee, hexp]⟩
    · by_cases hst : existing.start_date.any
        (fun s => decide (existing.expiration_date ≤ s)) = true
      · exact ⟨.startAfterExpiration, by simp [hee, hes, hexp, hst]⟩
      · refine ⟨.emptyPatch, ?_⟩
        rw [Bool.not_eq_true] at hst
        simp [hee, hes, hexp, hst, hempty]
  · intro hfuture hstart
    have hexp : ¬(existing.expiration_date ≤ now) := not_le.mpr hfuture
    have hst : existing.start_date.any
        (fun s => decide (existing.expiration_date ≤ s)) = false := by
      cases hs : existing.start_date with
      | none => rfl
      | some s =>
        simpa using not_le.mpr (hstart s hs)
    simp [hee, hes, hexp, hst, hempty]
  · intro hexp
    simp [hee, hexp]
  · intro hfuture s hs hle
    have hexp : ¬(existing.expiration_date ≤ now) := not_le.mpr hfuture
    have hst : existing.start_date.any
        (fun t => decide (existing.expiration_date ≤ t)) = true := by
      simp [hs, hle]
    simp [hee, hes, hexp, hst]

/-- C5 witness: an empty patch on a still-valid stored announcement is
rejected precisely with the empty-patch `InvalidInput`, while the same empty
patch on an already-expired one draws the expiration-date reason instead. -/
theorem update_empty_patch_rejected_witness :
    update_announcement ["t"] [activeAnn] 0 "eeeeeeeeeeeeeeeeeeeeeeee"
        emptyPatchVal "t" = .error (.invalidInput .emptyPatch) ∧
    update_announcement ["t"] [expiredAnn] 0 "aaaaaaaaaaaaaaaaaaaaaaaa"
        emptyPatchVal "t" = .error (.invalidInput .expirationInPast) :=
  ⟨(update_empty_patch_rejected ["t"] [activeAnn] 0
      "eeeeeeeeeeeeeeeeeeeeeeee" emptyPatchVal "t" activeAnn
      rfl rfl rfl rfl).2.1 (by decide) (fun s hs => by simp [activeAnn] at hs),
    (update_empty_patch_rejected ["t"] [expiredAnn] 0
      "aaaaaaaaaaaaaaaaaaaaaaaa" emptyPatchVal "t" expiredAnn
      rfl rfl rfl rfl).2.2.1 (by decide)⟩

/-- C4: for an authorized Create, the request is rejected with `InvalidInput`
exactly when the expiration is not strictly after `now` or a present start
date is not strictly before the expiration; otherwise the store gains one new
announcement carrying the request fields, `created_by = requester`,
`created_at = now`, and `is_active` defaulted to `true` when omitted. -/
theorem create_validates_and_persists (teachers : List String)
    (store : List Announcement) (now : Int) (req : AnnouncementCreate)
    (u newId : String) (hauth : teacherExists teachers u = true) :
    ((∃ r, create_announcement teachers store now req u newId =
        .error (.invalidInput r)) ↔
      (req.expiration_date ≤ now ∨
        ∃ s, req.start_date = some s ∧ req.expiration_date ≤ s)) ∧
    (¬(req.expiration_date ≤ now ∨
        ∃ s, req.start_date = some s ∧ req.expiration_date ≤ s) →
      create_announcement teachers store now req u newId =
        .ok (store ++ [{
          id := newId, title := req.title, message := req.message,
          start_date := req.start_date,
          expiration_date := req.expiration_date,
          is_active := req.is_active.getD true,
          created_by := u, created_at := now }], newId)) := by
  have hany : req.start_date.any
      (fun s => decide (req.expiration_date ≤ s)) = true ↔
      ∃ s, req.start_date = some s ∧ req.expiration_date ≤ s := by
    cases hs : req.start_date with
    | none => simp
    | some s => simp
  constructor
  · constructor
    · rintro ⟨r, hr⟩
      by_cases h1 : req.expiration_date ≤ now
      · exact Or.inl h1
      · by_cases h2 : req.start_date.any
            (fun s => decide (req.expiration_date ≤ s)) = true
        · exact Or.inr (hany.mp h2)
        · rw [Bool.not_eq_true] at h2
          unfold create_announcement at hr
          simp [hauth, h1, h2] at hr
    · intro h
      by_cases h1 : req.expiration_date ≤ now
      · exact ⟨.expirationInPast, by simp [create_announcement, hauth, h1]⟩
      · rcases h with h | hs
        · exact absurd h h1
        · refine ⟨.startAfterExpiration, ?_⟩
          simp [create_announcement, hauth, h1, hany.mpr hs]
  · intro h
    obtain ⟨h1, h2⟩ := not_or.mp h
    have h2b : req.start_date.any
        (fun s => decide (req.expiration_date ≤ s)) = false := by
      rw [← Bool.not_eq_true]
      intro hc
      exact h2 (hany.mp hc)
    simp [create_announcement, hauth, h1, h2b]

/-- C4 witness: a valid request by teacher `"t"` is persisted with the
defaulted `is_active`, authorship and timestamp fields. -/
theorem create_validates_and_persists_witness :
    create_announcement ["t"] [] 0 sampleCreate "t"
        "ffffffffffffffffffffffff" =
      .ok ([{
        id := "ffffffffffffffffffffffff", title := "T", message := "M",
        start_date := none, expiration_date := 100, is_active := true,
        created_by := "t", created_at := 0 }], "ffffffffffffffffffffffff") :=
  (create_validates_and_persists ["t"] [] 0 sampleCreate "t"
      "ffffffffffffffffffffffff" rfl).2 (by
    rintro (h | ⟨s, hs, -⟩)
    · exact absurd h (by decide)
    · simp [sampleCreate] at hs)

/-- C6: an authorized, well-formed Update of an existing announcement that
passes date validation and carries a non-empty patch still fails, with
`StorageError`, when the write modifies zero records (the `$set` leaves the
stored document unchanged). -/
theorem update_noop_storage_error (teachers : List String)
    (store : List Announcement) (now : Int) (aid : String)
    (patch : AnnouncementUpdate) (u : String) (existing : Announcement)
    (hauth : teacherExists teachers u = true)
    (hid : isValidObjectId aid = true)
    (hfind : store.find? (fun a => decide (a.id = aid)) = some existing)
    (hexp : now < effectiveExpiration patch existing)
    (hstart : ∀ s, effectiveStart patch existing = some s →
      s < effectiveExpiration patch existing)
    (hnonempty : patchIsEmpty patch = false)
    (hnoop : applyPatch existing patch = existing) :
    update_announcement teachers store now aid patch u =
      .error .storageError := by
  unfold update_announcement
  rw [hauth, hid, hfind]
  have hexpb : ¬(effectiveExpiration patch existing ≤ now) := not_le.mpr hexp
  have hst : (effectiveStart patch existing).any
      (fun s => decide (effectiveExpiration patch existing ≤ s)) = false := by
    cases hs : effectiveStart patch existing with
    | none => rfl
    | some s => simpa using not_le.mpr (hstart s hs)
  simp [hexpb, hst, hnonempty, hnoop]

/-- C6 witness: a patch re-asserting the already-stored `is_active = true`
modifies nothing and is answered with `StorageError`. -/
theorem update_noop_storage_error_witness :
    update_announcement ["t"] [activeAnn] 0 "eeeeeeeeeeeeeeeeeeeeeeee"
        noopPatch "t" = .error .storageError :=
  update_noop_storage_error ["t"] [activeAnn] 0 "eeeeeeeeeeeeeeeeeeeeeeee"
    noopPatch "t" activeAnn rfl rfl rfl (by decide)
    (fun s hs => by simp [effectiveStart, noopPatch, activeAnn] at hs)
    rfl rfl

/-- C8: a requester username that does not resolve to an existing teacher
makes Create, Update and Delete all fail with `Unauthorized`, for every
request body, id and patch, before any validation; no store value is
produced, so the announcement store is unchanged. -/
theorem unauthorized_rejects_all_writes (teachers : List String)
    (store : List Announcement) (now : Int) (u : String)
    (hno : teacherExists teachers u = false) :
    (∀ req newId, create_announcement teachers store now req u newId =
      .error .unauthorized) ∧
    (∀ aid patch, update_announcement teachers store now aid patch u =
      .error .unauthorized) ∧
    (∀ aid, delete_announcement teachers store aid u =
      .error .unauthorized) := by
  refine ⟨fun req newId => ?_, fun aid patch => ?_, fun aid => ?_⟩ <;>
    simp [create_announcement, update_announcement, delete_announcement, hno]

/-- C8 witness: the unknown username `"x"` is rejected on all three write
operations at concrete inputs. -/
theorem unauthorized_rejects_all_writes_witness :
    create_announcement ["t"] [activeAnn] 0 sampleCreate "x"
        "ffffffffffffffffffffffff" = .error .unauthorized ∧
    update_announcement ["t"] [activeAnn] 0 "eeeeeeeeeeeeeeeeeeeeeeee"
        titlePatch "x" = .error .unauthorized ∧
    delete_announcement ["t"] [activeAnn] "eeeeeeeeeeeeeeeeeeeeeeee" "x" =
      .error .unauthorized :=
  ⟨(unauthorized_rejects_all_writes ["t"] [activeAnn] 0 "x" rfl).1
      sampleCreate "ffffffffffffffffffffffff",
    (unauthorized_rejects_all_writes ["t"] [activeAnn] 0 "x" rfl).2.1
      "eeeeeeeeeeeeeeeeeeeeeeee" titlePatch,
    (unauthorized_rejects_all_writes ["t"] [activeAnn] 0 "x" rfl).2.2
      "eeeeeeeeeeeeeeeeeeeeeeee"⟩

/-- C9: for an authorized Delete, a malformed id is answered with the
malformed-id `InvalidInput` and a well-formed id matching no stored record
with `NotFound`; both are errors, so no announcement is removed. -/
theorem delete_rejects_malformed_and_missing (teachers : List String)
    (store : List Announcement) (aid : String) (u : String)
    (hauth : teacherExists teachers u = true) :
    (isValidObjectId aid = false →
      delete_announcement teachers store aid u =
        .error (.invalidInput .malformedId)) ∧
    ((isValidObjectId aid = true) → (∀ a ∈ store, a.id ≠ aid) →
      delete_announcement teachers store aid u = .error .notFound) := by
  constructor
  · intro hbad
    simp [delete_announcement, hauth, hbad]
  · intro hok hnone
    have hany : store.any (fun a => decide (a.id = aid)) = false := by
      rw [← Bool.not_eq_true, List.any_eq_true]
      rintro ⟨a, ha, hp⟩
      exact hnone a ha (of_decide_eq_true hp)
    simp [delete_announcement, hauth, hok, hany]

/-- C9 witness: deleting with the malformed id `"zz"` and with an unused
well-formed id, as teacher `"t"`, yield the two documented failures. -/
theorem delete_rejects_malformed_and_missing_witness :
    delete_announcement ["t"] [activeAnn] "zz" "t" =
      .error (.invalidInput .malformedId) ∧
    delete_announcement ["t"] [activeAnn] "cccccccccccccccccccccccc" "t" =
      .error .notFound :=
  ⟨(delete_rejects_malformed_and_missing ["t"] [activeAnn] "zz" "t" rfl).1
      (by decide),
    (delete_rejects_malformed_and_missing ["t"] [activeAnn]
        "cccccccccccccccccccccccc" "t" rfl).2 (by decide) (by decide)⟩

/-- A successful `find?` on the id splits the store into a non-matching
front, the found record, and a tail, and `updateFirst` rewrites exactly the
found record. -/
lemma find_decomp (store : List Announcement) (aid : String)
    (existing : Announcement)
    (hfind : store.find? (fun a => decide (a.id = aid)) = some existing) :
    ∃ pre post, store = pre ++ existing :: post ∧
      (∀ b ∈ pre, b.id ≠ aid) ∧ existing.id = aid ∧
      ∀ p, updateFirst store aid p = pre ++ applyPatch existing p :: post := by
  induction store with
  | nil => simp at hfind
  | cons a rest ih =>
    by_cases h : a.id = aid
    · rw [List.find?_cons_of_pos _ (by simpa using h)] at hfind
      obtain rfl : a = existing := by injection hfind
      exact ⟨[], rest, rfl, by simp, h, fun p => by simp [updateFirst, h]⟩
    · rw [List.find?_cons_of_neg _ (by simpa using h)] at hfind
      obtain ⟨pre, post, hst, hpre, hex, hupd⟩ := ih hfind
      refine ⟨a :: pre, post, by simp [hst], ?_, hex, fun p => ?_⟩
      · intro b hb
        rcases List.mem_cons.mp hb with hb | hb
        · exact hb ▸ h
        · exact hpre b hb
      · simp [updateFirst, h, hupd p]

/-- C7: every successful Update rewrites exactly the first record whose id
matches: the rest of the store is untouched, the rewritten record keeps its
`id`, `created_by` and `created_at`, and each mutable field takes the patch
value when present and the prior stored value otherwise. -/
theorem update_frame (teachers : List String) (store : List Announcement)
    (now : Int) (aid : String) (patch : AnnouncementUpdate) (u : String)
    (l : List Announcement)
    (hok : update_announcement teachers store now aid patch u = .ok l) :
    ∃ existing pre post, store = pre ++ existing :: post ∧
      (∀ b ∈ pre, b.id ≠ aid) ∧ existing.id = aid ∧
      l = pre ++ applyPatch existing patch :: post ∧
      (applyPatch existing patch).id = existing.id ∧
      (applyPatch existing patch).created_by = existing.created_by ∧
      (applyPatch existing patch).created_at = existing.created_at ∧
      (applyPatch existing patch).title = patch.title.getD existing.title ∧
      (applyPatch existing patch).message =
        patch.message.getD existing.message ∧
      (applyPatch existing patch).start_date = effectiveStart patch existing ∧
      (applyPatch existing patch).expiration_date =
        effectiveExpiration patch existing ∧
      (applyPatch existing patch).is_active =
        patch.is_active.getD existing.is_active := by
  unfold update_announcement at hok
  split at hok
  · exact absurd hok (by simp)
  split at hok
  · exact absurd hok (by simp)
  split at hok
  · exact absurd hok (by simp)
  rename_i existing hfind
  split at hok
  · exact absurd hok (by simp)
  split at hok
  · exact absurd hok (by simp)
  split at hok
  · exact absurd hok (by simp)
  split at hok
  · exact absurd hok (by simp)
  obtain rfl : updateFirst store aid patch = l := by injection hok
  obtain ⟨pre, post, hst, hpre, hex, hupd⟩ := find_decomp store aid existing hfind
  exact ⟨existing, pre, post, hst, hpre, hex, hupd patch, rfl, rfl, rfl, rfl,
    rfl, rfl, rfl, rfl⟩

/-- C7 witness: the concrete title-only update of `activeAnn` succeeds and
exhibits the frame decomposition. -/
theorem update_frame_witness :
    ∃ existing pre post,
      ([activeAnn] : List Announcement) = pre ++ existing :: post ∧
      (∀ b ∈ pre, b.id ≠ "eeeeeeeeeeeeeeeeeeeeeeee") ∧
      existing.id = "eeeeeeeeeeeeeeeeeeeeeeee" ∧
      updateFirst [activeAnn] "eeeeeeeeeeeeeeeeeeeeeeee" titlePatch =
        pre ++ applyPatch existing titlePatch :: post ∧
      (applyPatch existing titlePatch).id = existing.id ∧
      (applyPatch existing titlePatch).created_by = existing.created_by ∧
      (applyPatch existing titlePatch).created_at = existing.created_at ∧
      (applyPatch existing titlePatch).title =
        titlePatch.title.getD existing.title ∧
      (applyPatch existing titlePatch).message =
        titlePatch.message.getD existing.message ∧
      (applyPatch existing titlePatch).start_date =
        effectiveStart titlePatch existing ∧
      (applyPatch existing titlePatch).expiration_date =
        effectiveExpiration titlePatch existing ∧
      (applyPatch existing titlePatch).is_active =
        titlePatch.is_active.getD existing.is_active :=
  update_frame ["t"] [activeAnn] 0 "eeeeeeeeeeeeeeeeeeeeeeee" titlePatch "t"
    (updateFirst [activeAnn] "eeeeeeeeeeeeeeeeeeeeeeee" titlePatch) rfl
